import Mathlib

/-!
# openrouter-watcher: the poll loop of `main.go`

A shallow embedding of `src/main.go`.

* The process state is a `Proc`: the five Prometheus collectors (`Metrics`) and a trace of
  the externally visible steps (log entries, requests handed to `http.DefaultClient.Do`,
  ticker construction).
* What the outside world answers is an input.  `Lib` holds the deterministic library
  functions the program calls (`http.NewRequestWithContext`, `json.Decoder.Decode`,
  `time.ParseDuration`); `Net` holds what one poll observes (the round trip and the elapsed
  wall-clock time).  General theorems quantify over every `Lib` and `Net`.
* `goDecode` and `ParseDuration` are models of the Go standard library functions, used for
  the concrete scenarios; `goLib` packs them into a `Lib`.
* `float64` payload values are rationals: every value a JSON body can decode to is a finite
  double, and the program only stores and copies them.  The conversion of a number literal
  to a double is the parameter `parseFloat`.
* Counters count calls of `Inc`, the histogram keeps the list of observed durations.
* The metrics server goroutine (lines 62-69) runs concurrently and is not part of the model,
  nor are the deferred `cancel`, `t.Stop` and `resp.Body.Close`.
-/

namespace OpenrouterWatcher

/-! ## Data model -/

/-- Go `float64` values that reach the gauges. -/
abbrev Float64 := ℚ

/-- Go `time.Duration`: an `int64` count of nanoseconds. -/
abbrev Duration := Int

/-- Go `error` values, identified with their text. -/
abbrev GoError := String

/-- Constant `time.Second`. -/
def Second : Duration := 1000000000

/-- Conversion to `int64` with two's-complement wrap-around. -/
def toInt64 (x : Int) : Int :=
  (x + 9223372036854775808) % 18446744073709551616 - 9223372036854775808

/-- JSON values; a number keeps the text of its literal. -/
inductive JSON where
  | null
  | bool (b : Bool)
  | num (lit : String)
  | str (s : String)
  | arr (elems : List JSON)
  | obj (members : List (String × JSON))

/-- Type `Credits` (lines 104-107). -/
structure Credits where
  Total : Float64
  Usage : Float64

/-- The anonymous struct type of the field `Error` (lines 97-101). -/
structure ErrorInfo where
  Code : Int
  Message : String
  Metadata : Option (List (String × JSON))

/-- Type `OpenrouterResponse[T]` (lines 94-102). -/
structure OpenrouterResponse (T : Type) where
  Data : T
  Error : ErrorInfo

/-- Zero value `Credits{}`. -/
def Credits.zero : Credits :=
  { Total := 0, Usage := 0 }

/-- Zero value of the anonymous error struct. -/
def ErrorInfo.zero : ErrorInfo :=
  { Code := 0, Message := "", Metadata := none }

/-- Zero value of `OpenrouterResponse[Credits]`, the state of `var response` (line 110). -/
def OpenrouterResponse.zero : OpenrouterResponse Credits :=
  { Data := Credits.zero, Error := ErrorInfo.zero }

/-- The request built at lines 122-126. -/
structure Request where
  method : String
  url : String
  authorization : String

/-- What `json.NewDecoder(resp.Body)` finds in the response body. -/
inductive Body where
  | invalid (err : GoError)
  | value (v : JSON)

/-- The package-level collectors (lines 23-50). -/
structure Metrics where
  totalCredits : Float64
  totalUsage : Float64
  apiRequestDuration : List Duration
  apiSuccessfulRequests : Nat
  apiFailedRequests : String → Nat

/-- Externally visible steps of the process, one constructor per call site. -/
inductive Event where
  | logTokenNotSet
  | logBadInterval (err : GoError)
  | logStarting (apiEndpoint : String) (interval : Duration)
  | logFetchFailed (err : GoError)
  | logCreditsInfo (total usage : Float64)
  | httpDo (req : Request)
  | newTicker (d : Duration)
  | tickerReset (d : Duration)

/-- Process state: collectors and trace. -/
structure Proc where
  metrics : Metrics
  trace : List Event

/-- How the process ends. -/
inductive Exit where
  | returned
  | osExit (code : Nat)
  | panicked (msg : String)

/-- Exit status of the process: 0 when `main` returns, the argument of `os.Exit`,
2 after an unrecovered panic. -/
def Exit.status : Exit → Nat
  | .returned => 0
  | .osExit code => code
  | .panicked _ => 2

/-- Deterministic library functions called by the program. -/
structure Lib where
  newRequest : String → Option GoError
  decode : Body → OpenrouterResponse Credits → OpenrouterResponse Credits × Option GoError
  parseDuration : String → Except GoError Duration

/-- What one call of `getCreditsInfo` observes from the outside world. -/
structure Net where
  roundTrip : Request → Except GoError Body
  elapsed : Duration

/-- Process environment, as seen by `os.LookupEnv`. -/
abbrev Env := String → Option String

/-- Function `os.Getenv`: the value, or the empty string when the variable is unset. -/
def Getenv (env : Env) (key : String) : String :=
  match env key with
  | some v => v
  | none => ""

/-! ## Collector operations -/

/-- Append an event to the trace. -/
def Proc.emit (p : Proc) (e : Event) : Proc :=
  { p with trace := p.trace ++ [e] }

/-- Call `apiRequestDuration.Observe`. -/
def Metrics.observe (m : Metrics) (d : Duration) : Metrics :=
  { m with apiRequestDuration := m.apiRequestDuration ++ [d] }

/-- Call `apiSuccessfulRequests.Inc`. -/
def Metrics.incSuccessful (m : Metrics) : Metrics :=
  { m with apiSuccessfulRequests := m.apiSuccessfulRequests + 1 }

/-- Call `apiFailedRequests.WithLabelValues(label).Inc`. -/
def Metrics.incFailed (m : Metrics) (label : String) : Metrics :=
  { m with apiFailedRequests := fun l => if l = label then m.apiFailedRequests l + 1
                                          else m.apiFailedRequests l }

/-- Observation count of the request-duration histogram. -/
def Metrics.observations (m : Metrics) : Nat :=
  m.apiRequestDuration.length

/-- Function `strconv.Itoa`. -/
def Itoa (i : Int) : String :=
  toString i

/-! ## `getCreditsInfo` (lines 109-143) -/

/-- State of the named results and of `response` when the body of `getCreditsInfo`
returns, before the deferred function runs. -/
structure Returned where
  credits : Credits
  err : Option GoError
  response : OpenrouterResponse Credits
  trace : List Event

/-- Lines 122 and 126: the GET request for the endpoint, with the bearer token in the
header `Authorization`. -/
def buildRequest (apiEndpoint token : String) : Request :=
  { method := "GET", url := apiEndpoint, authorization := "Bearer " ++ token }

/-- Lines 122-142: the body of `getCreditsInfo`. -/
def getCreditsInfoBody (lib : Lib) (net : Net) (apiEndpoint token : String) : Returned :=
  let response := OpenrouterResponse.zero
  match lib.newRequest apiEndpoint with
  | some err => { credits := Credits.zero, err := some err, response := response, trace := [] }
  | none =>
    let req := buildRequest apiEndpoint token
    match net.roundTrip req with
    | .error err =>
      { credits := Credits.zero, err := some err, response := response,
        trace := [Event.httpDo req] }
    | .ok body =>
      let decoded := lib.decode body response
      let response := decoded.1
      match decoded.2 with
      | some err =>
        { credits := Credits.zero, err := some err, response := response,
          trace := [Event.httpDo req] }
      | none =>
        if response.Error.Code ≠ 0 then
          { credits := Credits.zero,
            err := some ("API error (code " ++ toString response.Error.Code ++ "): "
                          ++ response.Error.Message),
            response := response, trace := [Event.httpDo req] }
        else
          { credits := response.Data, err := none, response := response,
            trace := [Event.httpDo req] }

/-- Lines 113-120: the deferred function. -/
def getCreditsInfoDeferred (net : Net) (r : Returned) (m : Metrics) : Metrics :=
  let m := m.observe net.elapsed
  match r.err with
  | some _ => m.incFailed (Itoa r.response.Error.Code)
  | none => m.incSuccessful

/-- Function `getCreditsInfo`: the results and the process state after the call. -/
def getCreditsInfo (lib : Lib) (net : Net) (apiEndpoint token : String) (p : Proc) :
    (Credits × Option GoError) × Proc :=
  let r := getCreditsInfoBody lib net apiEndpoint token
  ((r.credits, r.err),
   { metrics := getCreditsInfoDeferred net r p.metrics, trace := p.trace ++ r.trace })

/-! ## Configuration (lines 145-189) -/

/-- Function `getAPIEndpoint`. -/
def getAPIEndpoint (env : Env) : String :=
  match env "OPENROUTER_API_ENDPOINT" with
  | none => "https://openrouter.ai/api/v1/credits"
  | some endpoint => endpoint

/-- Function `getAPIToken`: the token, or the exit of the process. -/
def getAPIToken (env : Env) (p : Proc) : Except Exit String × Proc :=
  let token := Getenv env "OPENROUTER_API_TOKEN"
  if token = "" then
    (.error (Exit.osExit 1), p.emit Event.logTokenNotSet)
  else
    (.ok token, p)

/-- Function `getInterval`: the interval, or the exit of the process. -/
def getInterval (lib : Lib) (env : Env) (p : Proc) : Except Exit Duration × Proc :=
  match env "WATCH_INTERVAL" with
  | none => (.ok (15 * Second), p)
  | some interval =>
    match lib.parseDuration interval with
    | .error err => (.error (Exit.osExit 1), p.emit (Event.logBadInterval err))
    | .ok duration => (.ok duration, p)

/-- Function `getExporterAddress`. -/
def getExporterAddress (env : Env) : String :=
  match env "EXPORTER_ADDRESS" with
  | none => ":9080"
  | some address => address

/-- Function `getExporterEndpoint`. -/
def getExporterEndpoint (env : Env) : String :=
  match env "EXPORTER_ENDPOINT" with
  | none => "/metrics"
  | some endpoint => endpoint

/-! ## `main` (lines 52-92) -/

/-- Lines 82-89: the handler of one tick. -/
def pollTick (lib : Lib) (apiEndpoint token : String) (p : Proc) (net : Net) : Proc :=
  let fetched := getCreditsInfo lib net apiEndpoint token p
  let credits := fetched.1.1
  let p := fetched.2
  let p := match fetched.1.2 with
    | some err => p.emit (Event.logFetchFailed err)
    | none => p
  let p := { p with metrics := { p.metrics with totalCredits := credits.Total } }
  let p := { p with metrics := { p.metrics with totalUsage := credits.Usage } }
  p.emit (Event.logCreditsInfo credits.Total credits.Usage)

/-- Lines 77-91: the loop handles the ticks in order, then the context is cancelled. -/
def pollLoop (lib : Lib) (apiEndpoint token : String) (ticks : List Net) (p : Proc) : Proc :=
  ticks.foldl (pollTick lib apiEndpoint token) p

/-- Lines 73-74: `time.NewTicker(interval)` followed by `t.Reset(interval - 1)`; both
panic on a non-positive duration. -/
def startTicker (interval : Duration) (p : Proc) : Except Exit Unit × Proc :=
  if interval ≤ 0 then
    (.error (Exit.panicked "non-positive interval for NewTicker"), p)
  else
    let p := p.emit (Event.newTicker interval)
    if toInt64 (interval - 1) ≤ 0 then
      (.error (Exit.panicked "non-positive interval for Ticker.Reset"), p)
    else
      (.ok (), p.emit (Event.tickerReset (toInt64 (interval - 1))))

/-- Initial process state: collectors at zero, empty trace. -/
def Proc.init : Proc :=
  { metrics := { totalCredits := 0, totalUsage := 0, apiRequestDuration := [],
                 apiSuccessfulRequests := 0, apiFailedRequests := fun _ => 0 },
    trace := [] }

/-- Function `main`, run from the initial process state on the ticks that fire before the
interrupt. -/
def main (lib : Lib) (env : Env) (ticks : List Net) : Exit × Proc :=
  let apiEndpoint := getAPIEndpoint env
  match getAPIToken env Proc.init with
  | (.error e, p) => (e, p)
  | (.ok token, p) =>
    match getInterval lib env p with
    | (.error e, p) => (e, p)
    | (.ok interval, p) =>
      let p := p.emit (Event.logStarting apiEndpoint interval)
      match startTicker interval p with
      | (.error e, p) => (e, p)
      | (.ok _, p) => (Exit.returned, pollLoop lib apiEndpoint token ticks p)

/-- The requests of a trace, in order. -/
def requestsOf : List Event → List Request
  | [] => []
  | Event.httpDo req :: rest => req :: requestsOf rest
  | _ :: rest => requestsOf rest

/-- Whether a trace contains the construction of the ticker. -/
def tickerCreated : List Event → Bool
  | [] => false
  | Event.newTicker _ :: _ => true
  | _ :: rest => tickerCreated rest

/-! ## Model of `json.Decoder.Decode` into `OpenrouterResponse[Credits]`

The behaviour of `encoding/json`: a body that cannot be read or is not valid JSON is
rejected before anything is stored; a value of the wrong type for its target is skipped,
the first such mismatch is remembered and returned at the end, and the remaining fields are
still stored.  The text of a mismatch error is abbreviated. -/

/-- Case folding of one rune for field matching: ASCII letters to upper case; the two
non-ASCII runes whose fold orbit contains an ASCII letter (U+017F, U+212A) to that
letter. -/
def foldRune (c : Char) : Char :=
  if c = Char.ofNat 0x17F then 'S'
  else if c = Char.ofNat 0x212A then 'K'
  else c.toUpper

/-- Case folding of an object key. -/
def foldName (s : String) : String :=
  String.mk (s.toList.map foldRune)

/-- Whether an object key selects the struct field with the given JSON name. -/
def fieldIs (key name : String) : Bool :=
  decide (foldName key = foldName name)

/-- Text of a `json.UnmarshalTypeError`. -/
def typeError (value field goType : String) : GoError :=
  "json: cannot unmarshal " ++ value ++ " into Go struct field " ++ field ++ " of type "
    ++ goType

/-- The decoder keeps the first mismatch only. -/
def saveError (saved : Option GoError) (err : GoError) : Option GoError :=
  match saved with
  | none => some err
  | some e => some e

/-- Value of a run of decimal digits, `none` when a character is not a digit. -/
def parseDigits : List Char → Nat → Option Nat
  | [], acc => some acc
  | c :: cs, acc => if c.isDigit then parseDigits cs (acc * 10 + (c.toNat - 48)) else none

/-- Function `strconv.ParseInt(s, 10, 64)`. -/
def ParseInt (s : String) : Option Int :=
  match s.toList with
  | [] => none
  | c :: cs =>
    if c = '-' then
      if cs = [] then none
      else
        match parseDigits cs 0 with
        | some n => if n ≤ 9223372036854775808 then some (-(n : Int)) else none
        | none => none
    else
      let ds := if c = '+' then cs else c :: cs
      if ds = [] then none
      else
        match parseDigits ds 0 with
        | some n => if n ≤ 9223372036854775807 then some (n : Int) else none
        | none => none

/-- Store a JSON value into a `float64` field. -/
def decodeFloat64 (parseFloat : String → Option Float64) (field : String) (v : JSON)
    (cur : Float64) (saved : Option GoError) : Float64 × Option GoError :=
  match v with
  | .null => (cur, saved)
  | .num lit =>
    match parseFloat lit with
    | some x => (x, saved)
    | none => (cur, saveError saved (typeError ("number " ++ lit) field "float64"))
  | .bool _ => (cur, saveError saved (typeError "bool" field "float64"))
  | .str _ => (cur, saveError saved (typeError "string" field "float64"))
  | .arr _ => (cur, saveError saved (typeError "array" field "float64"))
  | .obj _ => (cur, saveError saved (typeError "object" field "float64"))

/-- Store a JSON value into an `int` field. -/
def decodeInt (field : String) (v : JSON) (cur : Int) (saved : Option GoError) :
    Int × Option GoError :=
  match v with
  | .null => (cur, saved)
  | .num lit =>
    match ParseInt lit with
    | some n => (n, saved)
    | none => (cur, saveError saved (typeError ("number " ++ lit) field "int"))
  | .bool _ => (cur, saveError saved (typeError "bool" field "int"))
  | .str _ => (cur, saveError saved (typeError "string" field "int"))
  | .arr _ => (cur, saveError saved (typeError "array" field "int"))
  | .obj _ => (cur, saveError saved (typeError "object" field "int"))

/-- Store a JSON value into a `string` field. -/
def decodeString (field : String) (v : JSON) (cur : String) (saved : Option GoError) :
    String × Option GoError :=
  match v with
  | .null => (cur, saved)
  | .str s => (s, saved)
  | .num _ => (cur, saveError saved (typeError "number" field "string"))
  | .bool _ => (cur, saveError saved (typeError "bool" field "string"))
  | .arr _ => (cur, saveError saved (typeError "array" field "string"))
  | .obj _ => (cur, saveError saved (typeError "object" field "string"))

/-- Store a JSON value into the `map[string]any` field; entries are kept in body order. -/
def decodeMetadata (field : String) (v : JSON) (cur : Option (List (String × JSON)))
    (saved : Option GoError) : Option (List (String × JSON)) × Option GoError :=
  match v with
  | .null => (none, saved)
  | .obj members => (some (cur.getD [] ++ members), saved)
  | .num _ => (cur, saveError saved (typeError "number" field "map[string]interface"))
  | .bool _ => (cur, saveError saved (typeError "bool" field "map[string]interface"))
  | .str _ => (cur, saveError saved (typeError "string" field "map[string]interface"))
  | .arr _ => (cur, saveError saved (typeError "array" field "map[string]interface"))

/-- Store one object member into a `Credits` struct. -/
def decodeCreditsMember (parseFloat : String → Option Float64)
    (st : Credits × Option GoError) (kv : String × JSON) : Credits × Option GoError :=
  if fieldIs kv.1 "total_credits" then
    let r := decodeFloat64 parseFloat "data.total_credits" kv.2 st.1.Total st.2
    ({ st.1 with Total := r.1 }, r.2)
  else if fieldIs kv.1 "total_usage" then
    let r := decodeFloat64 parseFloat "data.total_usage" kv.2 st.1.Usage st.2
    ({ st.1 with Usage := r.1 }, r.2)
  else st

/-- Store a JSON value into the field `Data`. -/
def decodeCredits (parseFloat : String → Option Float64) (v : JSON) (cur : Credits)
    (saved : Option GoError) : Credits × Option GoError :=
  match v with
  | .null => (cur, saved)
  | .obj members => members.foldl (decodeCreditsMember parseFloat) (cur, saved)
  | .num _ => (cur, saveError saved (typeError "number" "data" "main.Credits"))
  | .bool _ => (cur, saveError saved (typeError "bool" "data" "main.Credits"))
  | .str _ => (cur, saveError saved (typeError "string" "data" "main.Credits"))
  | .arr _ => (cur, saveError saved (typeError "array" "data" "main.Credits"))

/-- Store one object member into the error struct. -/
def decodeErrorMember (st : ErrorInfo × Option GoError) (kv : String × JSON) :
    ErrorInfo × Option GoError :=
  if fieldIs kv.1 "code" then
    let r := decodeInt "error.code" kv.2 st.1.Code st.2
    ({ st.1 with Code := r.1 }, r.2)
  else if fieldIs kv.1 "message" then
    let r := decodeString "error.message" kv.2 st.1.Message st.2
    ({ st.1 with Message := r.1 }, r.2)
  else if fieldIs kv.1 "metadata" then
    let r := decodeMetadata "error.metadata" kv.2 st.1.Metadata st.2
    ({ st.1 with Metadata := r.1 }, r.2)
  else st

/-- Store a JSON value into the field `Error`. -/
def decodeErrorInfo (v : JSON) (cur : ErrorInfo) (saved : Option GoError) :
    ErrorInfo × Option GoError :=
  match v with
  | .null => (cur, saved)
  | .obj members => members.foldl decodeErrorMember (cur, saved)
  | .num _ => (cur, saveError saved (typeError "number" "error" "struct"))
  | .bool _ => (cur, saveError saved (typeError "bool" "error" "struct"))
  | .str _ => (cur, saveError saved (typeError "string" "error" "struct"))
  | .arr _ => (cur, saveError saved (typeError "array" "error" "struct"))

/-- Store one object member into the envelope. -/
def decodeEnvelopeMember (parseFloat : String → Option Float64)
    (st : OpenrouterResponse Credits × Option GoError) (kv : String × JSON) :
    OpenrouterResponse Credits × Option GoError :=
  if fieldIs kv.1 "data" then
    let r := decodeCredits parseFloat kv.2 st.1.Data st.2
    ({ st.1 with Data := r.1 }, r.2)
  else if fieldIs kv.1 "error" then
    let r := decodeErrorInfo kv.2 st.1.Error st.2
    ({ st.1 with Error := r.1 }, r.2)
  else st

/-- Store a JSON value into the envelope. -/
def decodeEnvelope (parseFloat : String → Option Float64) (v : JSON)
    (cur : OpenrouterResponse Credits) (saved : Option GoError) :
    OpenrouterResponse Credits × Option GoError :=
  match v with
  | .null => (cur, saved)
  | .obj members => members.foldl (decodeEnvelopeMember parseFloat) (cur, saved)
  | .num _ => (cur, saveError saved (typeError "number" "" "main.OpenrouterResponse"))
  | .bool _ => (cur, saveError saved (typeError "bool" "" "main.OpenrouterResponse"))
  | .str _ => (cur, saveError saved (typeError "string" "" "main.OpenrouterResponse"))
  | .arr _ => (cur, saveError saved (typeError "array" "" "main.OpenrouterResponse"))

/-- Model of `json.NewDecoder(resp.Body).Decode(&response)`. -/
def goDecode (parseFloat : String → Option Float64) (body : Body)
    (response : OpenrouterResponse Credits) : OpenrouterResponse Credits × Option GoError :=
  match body with
  | .invalid err => (response, some err)
  | .value v => decodeEnvelope parseFloat v response none

/-! ## Model of `time.ParseDuration`

Strings are read rune by rune; digits, the sign and the period are ASCII, so this agrees
with the byte-wise scan.  The one floating-point step, the nanoseconds of a fractional part,
is the parameter `fracNanos f unit scale`, standing for
`uint64(float64(f) * (float64(unit) / scale))`.  Quoting in error texts is abbreviated. -/

/-- Function `leadingInt`: the leading digits as a number, and the rest; `none` on
overflow. -/
def leadingInt : List Char → Nat → Option (Nat × List Char)
  | [], x => some (x, [])
  | c :: rest, x =>
    if c.isDigit then
      if x > 9223372036854775808 / 10 then none
      else if x * 10 + (c.toNat - 48) > 9223372036854775808 then none
      else leadingInt rest (x * 10 + (c.toNat - 48))
    else some (x, c :: rest)

/-- Function `leadingFraction`: the leading digits as a number, its scale, and the rest;
digits past the overflow point are dropped. -/
def leadingFraction : List Char → Nat → Nat → Bool → Nat × Nat × List Char
  | [], x, scale, _ => (x, scale, [])
  | c :: rest, x, scale, overflow =>
    if c.isDigit then
      if overflow then leadingFraction rest x scale true
      else if x > 9223372036854775807 / 10 then leadingFraction rest x scale true
      else if x * 10 + (c.toNat - 48) > 9223372036854775808 then
        leadingFraction rest x scale true
      else leadingFraction rest (x * 10 + (c.toNat - 48)) (scale * 10) false
    else (x, scale, c :: rest)

/-- The unit of a term: the characters up to the next period or digit, and the rest. -/
def splitUnit : List Char → List Char × List Char
  | [] => ([], [])
  | c :: rest =>
    if c = '.' ∨ c.isDigit then ([], c :: rest)
    else ((c :: (splitUnit rest).1), (splitUnit rest).2)

/-- Table `unitMap`. -/
def unitMap (u : String) : Option Nat :=
  if u = "ns" then some 1
  else if u = "us" then some 1000
  else if u = String.mk [Char.ofNat 0xB5, 's'] then some 1000
  else if u = String.mk [Char.ofNat 0x3BC, 's'] then some 1000
  else if u = "ms" then some 1000000
  else if u = "s" then some 1000000000
  else if u = "m" then some 60000000000
  else if u = "h" then some 3600000000000
  else none

/-- Error text for an invalid duration. -/
def invalidDuration (orig : String) : GoError :=
  "time: invalid duration \"" ++ orig ++ "\""

/-- The nanoseconds of one term `v.f unit`, or `none` on overflow. -/
def termNanos (fracNanos : Nat → Nat → Nat → Nat) (v f scale unit : Nat) : Option Nat :=
  if v > 9223372036854775808 / unit then none
  else if f > 0 then
    if (v * unit + fracNanos f unit scale) % 18446744073709551616 > 9223372036854775808 then
      none
    else some ((v * unit + fracNanos f unit scale) % 18446744073709551616)
  else some (v * unit)

/-- The optional fraction of a term: its digits as a number, its scale, the rest of the
string, and whether a digit was consumed. -/
def fractionPart (s1 : List Char) : Nat × Nat × List Char × Bool :=
  match s1 with
  | c1 :: s1rest =>
    if c1 = '.' then
      let r := leadingFraction s1rest 0 1 false
      (r.1, r.2.1, r.2.2, decide (s1rest.length ≠ r.2.2.length))
    else (0, 1, s1, false)
  | [] => (0, 1, s1, false)

/-- One round of the loop of `ParseDuration` on a non-empty string: the nanoseconds of the
leading term and the rest of the string. -/
def parseTerm (fracNanos : Nat → Nat → Nat → Nat) (orig : String) (s : List Char) :
    Except GoError (Nat × List Char) :=
  match s with
  | [] => .error (invalidDuration orig)
  | c :: rest =>
    if ¬ (c = '.' ∨ c.isDigit) then .error (invalidDuration orig)
    else
      match leadingInt (c :: rest) 0 with
      | none => .error (invalidDuration orig)
      | some (v, s1) =>
        let pre := decide ((c :: rest).length ≠ s1.length)
        let frac := fractionPart s1
        if pre = false ∧ frac.2.2.2 = false then .error (invalidDuration orig)
        else
          let u := splitUnit frac.2.2.1
          if u.1 = [] then .error ("time: missing unit in duration \"" ++ orig ++ "\"")
          else
            match unitMap (String.mk u.1) with
            | none =>
              .error ("time: unknown unit \"" ++ String.mk u.1 ++ "\" in duration \""
                        ++ orig ++ "\"")
            | some unit =>
              match termNanos fracNanos v frac.1 frac.2.1 unit with
              | none => .error (invalidDuration orig)
              | some t => .ok (t, u.2)

/-- The loop of `ParseDuration` over the terms of the string; `d` is the sum so far.  Each
round consumes at least one character, so a fuel above the length is never used up
(`parseDurationLoop_fuel`). -/
def parseDurationLoop (fracNanos : Nat → Nat → Nat → Nat) (orig : String) :
    Nat → List Char → Nat → Except GoError Nat
  | _, [], d => .ok d
  | 0, _ :: _, _ => .error (invalidDuration orig)
  | fuel + 1, c :: rest, d =>
    match parseTerm fracNanos orig (c :: rest) with
    | .error e => .error e
    | .ok (t, s) =>
      if (d + t) % 18446744073709551616 > 9223372036854775808 then
        .error (invalidDuration orig)
      else parseDurationLoop fracNanos orig fuel s ((d + t) % 18446744073709551616)

/-- Model of `time.ParseDuration`. -/
def ParseDuration (fracNanos : Nat → Nat → Nat → Nat) (s : String) :
    Except GoError Duration :=
  let signed : Bool × List Char :=
    match s.toList with
    | c :: rest => if c = '-' ∨ c = '+' then (decide (c = '-'), rest) else (false, c :: rest)
    | [] => (false, [])
  if signed.2 = ['0'] then .ok 0
  else if signed.2 = [] then .error (invalidDuration s)
  else
    match parseDurationLoop fracNanos s (signed.2.length + 1) signed.2 0 with
    | .error e => .error e
    | .ok d =>
      if signed.1 then .ok (toInt64 (-(toInt64 d)))
      else if d > 9223372036854775807 then .error (invalidDuration s)
      else .ok (toInt64 d)

/-- The library as modelled: `goDecode` and `ParseDuration`, with the URL check of
`http.NewRequestWithContext` and the floating-point conversions as parameters. -/
def goLib (newRequest : String → Option GoError) (parseFloat : String → Option Float64)
    (fracNanos : Nat → Nat → Nat → Nat) : Lib :=
  { newRequest := newRequest, decode := goDecode parseFloat,
    parseDuration := ParseDuration fracNanos }

/-! ## Scenarios -/

/-- A URL check that accepts every endpoint. -/
def acceptURL : String → Option GoError :=
  fun _ => none

/-- The conversion of the two number literals of the success scenario; both are exactly
representable doubles. -/
def scenarioParseFloat (lit : String) : Option Float64 :=
  if lit = "100.0" then some 100
  else if lit = "42.5" then some (85 / 2)
  else none

/-- The fraction of a duration term in exact arithmetic. -/
def exactFrac (f unit scale : Nat) : Nat :=
  f * unit / scale

/-- The library used in the scenarios. -/
def scenarioLib : Lib :=
  goLib acceptURL scenarioParseFloat exactFrac

/-- An endpoint that answers every request with the given JSON value. -/
def serve (v : JSON) : Net :=
  { roundTrip := fun _ => .ok (Body.value v), elapsed := 250000000 }

/-- An unreachable endpoint. -/
def refuse : Net :=
  { roundTrip := fun _ => .error "dial tcp 127.0.0.1:1: connect: connection refused",
    elapsed := 1000000 }

/-- Body with credits 100.0 and usage 42.5 and error code 0. -/
def creditsBody : JSON :=
  .obj [("data", .obj [("total_credits", .num "100.0"), ("total_usage", .num "42.5")]),
        ("error", .obj [("code", .num "0")])]

/-- Body with empty data and error code 402. -/
def insufficientBody : JSON :=
  .obj [("data", .obj []),
        ("error", .obj [("code", .num "402"), ("message", .str "insufficient credit")])]

/-- Body with error code 402 in which `total_credits` is a string. -/
def mistypedBody : JSON :=
  .obj [("error", .obj [("code", .num "402"), ("message", .str "insufficient credit")]),
        ("data", .obj [("total_credits", .str "n/a")])]

/-- A process state whose gauges hold the values of an earlier successful poll. -/
def polledProc : Proc :=
  { Proc.init with
    metrics := { Proc.init.metrics with totalCredits := 100, totalUsage := 85 / 2 } }

/-- An environment with the given token and watch interval, everything else unset. -/
def envWith (token interval : Option String) : Env :=
  fun key =>
    if key = "OPENROUTER_API_TOKEN" then token
    else if key = "WATCH_INTERVAL" then interval
    else none

/-! ## Lemmas on `getCreditsInfo` -/

theorem getCreditsInfo_err (lib : Lib) (net : Net) (apiEndpoint token : String) (p : Proc) :
    (getCreditsInfo lib net apiEndpoint token p).1.2
      = (getCreditsInfoBody lib net apiEndpoint token).err := rfl

theorem getCreditsInfo_credits (lib : Lib) (net : Net) (apiEndpoint token : String)
    (p : Proc) :
    (getCreditsInfo lib net apiEndpoint token p).1.1
      = (getCreditsInfoBody lib net apiEndpoint token).credits := rfl

theorem getCreditsInfo_metrics (lib : Lib) (net : Net) (apiEndpoint token : String)
    (p : Proc) :
    (getCreditsInfo lib net apiEndpoint token p).2.metrics
      = getCreditsInfoDeferred net (getCreditsInfoBody lib net apiEndpoint token) p.metrics :=
  rfl

/-- The body when the request cannot be built. -/
theorem getCreditsInfoBody_request_error (lib : Lib) (net : Net)
    (apiEndpoint token : String) (err : GoError) (h1 : lib.newRequest apiEndpoint = some err) :
    getCreditsInfoBody lib net apiEndpoint token
      = { credits := Credits.zero, err := some err, response := OpenrouterResponse.zero,
          trace := [] } := by
  unfold getCreditsInfoBody
  simp [h1]

/-- The body when the round trip fails. -/
theorem getCreditsInfoBody_transport_error (lib : Lib) (net : Net)
    (apiEndpoint token : String) (err : GoError) (h1 : lib.newRequest apiEndpoint = none)
    (h2 : net.roundTrip (buildRequest apiEndpoint token) = .error err) :
    getCreditsInfoBody lib net apiEndpoint token
      = { credits := Credits.zero, err := some err, response := OpenrouterResponse.zero,
          trace := [Event.httpDo (buildRequest apiEndpoint token)] } := by
  unfold getCreditsInfoBody
  simp [h1, h2]

/-- The body when decoding fails. -/
theorem getCreditsInfoBody_decode_error (lib : Lib) (net : Net)
    (apiEndpoint token : String) (body : Body) (err : GoError)
    (h1 : lib.newRequest apiEndpoint = none)
    (h2 : net.roundTrip (buildRequest apiEndpoint token) = .ok body)
    (h3 : (lib.decode body OpenrouterResponse.zero).2 = some err) :
    getCreditsInfoBody lib net apiEndpoint token
      = { credits := Credits.zero, err := some err,
          response := (lib.decode body OpenrouterResponse.zero).1,
          trace := [Event.httpDo (buildRequest apiEndpoint token)] } := by
  unfold getCreditsInfoBody
  simp [h1, h2, h3]

/-- The body when the envelope carries a non-zero error code. -/
theorem getCreditsInfoBody_api_error (lib : Lib) (net : Net)
    (apiEndpoint token : String) (body : Body)
    (h1 : lib.newRequest apiEndpoint = none)
    (h2 : net.roundTrip (buildRequest apiEndpoint token) = .ok body)
    (h3 : (lib.decode body OpenrouterResponse.zero).2 = none)
    (h4 : (lib.decode body OpenrouterResponse.zero).1.Error.Code ≠ 0) :
    getCreditsInfoBody lib net apiEndpoint token
      = { credits := Credits.zero,
          err := some ("API error (code "
                  ++ toString (lib.decode body OpenrouterResponse.zero).1.Error.Code ++ "): "
                  ++ (lib.decode body OpenrouterResponse.zero).1.Error.Message),
          response := (lib.decode body OpenrouterResponse.zero).1,
          trace := [Event.httpDo (buildRequest apiEndpoint token)] } := by
  unfold getCreditsInfoBody
  simp [h1, h2, h3, h4]

/-- The body on success. -/
theorem getCreditsInfoBody_success (lib : Lib) (net : Net)
    (apiEndpoint token : String) (body : Body)
    (h1 : lib.newRequest apiEndpoint = none)
    (h2 : net.roundTrip (buildRequest apiEndpoint token) = .ok body)
    (h3 : (lib.decode body OpenrouterResponse.zero).2 = none)
    (h4 : (lib.decode body OpenrouterResponse.zero).1.Error.Code = 0) :
    getCreditsInfoBody lib net apiEndpoint token
      = { credits := (lib.decode body OpenrouterResponse.zero).1.Data, err := none,
          response := (lib.decode body OpenrouterResponse.zero).1,
          trace := [Event.httpDo (buildRequest apiEndpoint token)] } := by
  unfold getCreditsInfoBody
  simp [h1, h2, h3, h4]

/-- Every request of the body carries the bearer token. -/
theorem getCreditsInfoBody_requests (lib : Lib) (net : Net) (apiEndpoint token : String) :
    ∀ req ∈ requestsOf (getCreditsInfoBody lib net apiEndpoint token).trace,
      req.authorization = "Bearer " ++ token := by
  intro req hreq
  cases h1 : lib.newRequest apiEndpoint with
  | some e =>
    rw [getCreditsInfoBody_request_error lib net apiEndpoint token e h1] at hreq
    simp [requestsOf] at hreq
  | none =>
    have key : (getCreditsInfoBody lib net apiEndpoint token).trace
        = [Event.httpDo (buildRequest apiEndpoint token)] := by
      cases h2 : net.roundTrip (buildRequest apiEndpoint token) with
      | error e => rw [getCreditsInfoBody_transport_error lib net apiEndpoint token e h1 h2]
      | ok body =>
        cases h3 : (lib.decode body OpenrouterResponse.zero).2 with
        | some e => rw [getCreditsInfoBody_decode_error lib net apiEndpoint token body e h1 h2 h3]
        | none =>
          by_cases h4 : (lib.decode body OpenrouterResponse.zero).1.Error.Code = 0
          · rw [getCreditsInfoBody_success lib net apiEndpoint token body h1 h2 h3 h4]
          · rw [getCreditsInfoBody_api_error lib net apiEndpoint token body h1 h2 h3 h4]
    rw [key] at hreq
    simp [requestsOf] at hreq
    rw [hreq]
    rfl

/-- The requests of a concatenated trace. -/
theorem requestsOf_append (a b : List Event) :
    requestsOf (a ++ b) = requestsOf a ++ requestsOf b := by
  induction a with
  | nil => rfl
  | cons e rest ih => cases e <;> simp [requestsOf, ih]

/-- The requests of the trace after a tick: those before, then those of the fetch. -/
theorem pollTick_requestsOf (lib : Lib) (net : Net) (apiEndpoint token : String) (p : Proc) :
    requestsOf (pollTick lib apiEndpoint token p net).trace
      = requestsOf p.trace
          ++ requestsOf (getCreditsInfoBody lib net apiEndpoint token).trace := by
  simp only [pollTick, getCreditsInfo]
  cases (getCreditsInfoBody lib net apiEndpoint token).err <;>
    simp [Proc.emit, requestsOf_append, requestsOf]

/-- The tick handler adds only requests that carry the bearer token. -/
theorem pollTick_requests (lib : Lib) (net : Net) (apiEndpoint token : String) (p : Proc)
    (hp : ∀ req ∈ requestsOf p.trace, req.authorization = "Bearer " ++ token) :
    ∀ req ∈ requestsOf (pollTick lib apiEndpoint token p net).trace,
      req.authorization = "Bearer " ++ token := by
  intro req hreq
  rw [pollTick_requestsOf, List.mem_append] at hreq
  rcases hreq with h | h
  · exact hp req h
  · exact getCreditsInfoBody_requests lib net apiEndpoint token req h

/-- The loop adds only requests that carry the bearer token. -/
theorem pollLoop_requests (lib : Lib) (apiEndpoint token : String) (ticks : List Net) :
    ∀ p : Proc, (∀ req ∈ requestsOf p.trace, req.authorization = "Bearer " ++ token) →
      ∀ req ∈ requestsOf (pollLoop lib apiEndpoint token ticks p).trace,
        req.authorization = "Bearer " ++ token := by
  induction ticks with
  | nil => intro p hp; exact hp
  | cons net rest ih =>
    intro p hp
    exact ih (pollTick lib apiEndpoint token p net)
      (pollTick_requests lib net apiEndpoint token p hp)

/-- The deferred function on a failed call. -/
theorem getCreditsInfoDeferred_failed (net : Net) (r : Returned) (m : Metrics)
    (h : r.err ≠ none) :
    getCreditsInfoDeferred net r m
      = (m.observe net.elapsed).incFailed (Itoa r.response.Error.Code) := by
  unfold getCreditsInfoDeferred
  cases hr : r.err with
  | none => exact absurd hr h
  | some e => rfl

/-- The deferred function on a successful call. -/
theorem getCreditsInfoDeferred_ok (net : Net) (r : Returned) (m : Metrics)
    (h : r.err = none) :
    getCreditsInfoDeferred net r m = (m.observe net.elapsed).incSuccessful := by
  unfold getCreditsInfoDeferred
  simp [h]

/-- The tick handler stores the returned `Credits` in the gauges, whatever the error. -/
theorem pollTick_gauges (lib : Lib) (net : Net) (apiEndpoint token : String) (p : Proc) :
    (pollTick lib apiEndpoint token p net).metrics.totalCredits
        = (getCreditsInfoBody lib net apiEndpoint token).credits.Total
    ∧ (pollTick lib apiEndpoint token p net).metrics.totalUsage
        = (getCreditsInfoBody lib net apiEndpoint token).credits.Usage := by
  unfold pollTick
  constructor <;> rfl

/-- The decimal string of zero. -/
theorem Itoa_zero : Itoa 0 = "0" := by
  decide

/-- Reading the interval sends no request. -/
theorem getInterval_requestsOf (lib : Lib) (env : Env) (p : Proc) :
    requestsOf (getInterval lib env p).2.trace = requestsOf p.trace := by
  unfold getInterval
  cases env "WATCH_INTERVAL" with
  | none => rfl
  | some s =>
    simp only []
    split <;> simp [Proc.emit, requestsOf_append, requestsOf]

/-- Starting the ticker sends no request. -/
theorem startTicker_requestsOf (interval : Duration) (p : Proc) :
    requestsOf (startTicker interval p).2.trace = requestsOf p.trace := by
  unfold startTicker
  split_ifs <;> simp [Proc.emit, requestsOf_append, requestsOf]

/-- Without a token `main` exits with status 1 after logging, before anything else. -/
theorem main_token_missing (lib : Lib) (env : Env) (ticks : List Net)
    (h : Getenv env "OPENROUTER_API_TOKEN" = "") :
    main lib env ticks = (Exit.osExit 1, Proc.init.emit Event.logTokenNotSet) := by
  unfold main getAPIToken
  simp [h]

/-- With a token and an interval that does not parse `main` exits with status 1 after
logging, before the ticker is built. -/
theorem main_bad_interval (lib : Lib) (env : Env) (ticks : List Net) (s : String)
    (err : GoError) (ht : Getenv env "OPENROUTER_API_TOKEN" ≠ "")
    (hs : env "WATCH_INTERVAL" = some s) (hp : lib.parseDuration s = .error err) :
    main lib env ticks = (Exit.osExit 1, Proc.init.emit (Event.logBadInterval err)) := by
  unfold main getAPIToken getInterval
  simp [ht, hs, hp]

/-- Every request `main` sends carries the value of the token variable. -/
theorem main_requests (lib : Lib) (env : Env) (ticks : List Net) :
    ∀ req ∈ requestsOf (main lib env ticks).2.trace,
      req.authorization = "Bearer " ++ Getenv env "OPENROUTER_API_TOKEN" := by
  by_cases ht : Getenv env "OPENROUTER_API_TOKEN" = ""
  · rw [main_token_missing lib env ticks ht]
    simp [Proc.emit, Proc.init, requestsOf]
  · unfold main getAPIToken
    simp only [ht, if_false]
    have hi := getInterval_requestsOf lib env Proc.init
    rcases hgi : getInterval lib env Proc.init with ⟨r, p1⟩
    rw [hgi] at hi
    cases r with
    | error e =>
      simp only []
      intro req hreq
      rw [hi] at hreq
      simp [Proc.init, requestsOf] at hreq
    | ok interval =>
      simp only []
      have hs := startTicker_requestsOf interval
        (p1.emit (Event.logStarting (getAPIEndpoint env) interval))
      rcases hst : startTicker interval
        (p1.emit (Event.logStarting (getAPIEndpoint env) interval)) with ⟨r2, p2⟩
      rw [hst] at hs
      have hp2 : requestsOf p2.trace = [] := by
        rw [hs]
        simp only [Proc.emit, requestsOf_append, hi]
        simp [Proc.init, requestsOf]
      cases r2 with
      | error e =>
        simp only []
        intro req hreq
        rw [hp2] at hreq
        simp at hreq
      | ok u =>
        simp only []
        apply pollLoop_requests
        intro req hreq
        rw [hp2] at hreq
        simp at hreq

/-- A failed call returns the zero `Credits`. -/
theorem getCreditsInfoBody_failed_credits (lib : Lib) (net : Net)
    (apiEndpoint token : String)
    (h : (getCreditsInfoBody lib net apiEndpoint token).err ≠ none) :
    (getCreditsInfoBody lib net apiEndpoint token).credits = Credits.zero := by
  cases h1 : lib.newRequest apiEndpoint with
  | some e => rw [getCreditsInfoBody_request_error lib net apiEndpoint token e h1]
  | none =>
    cases h2 : net.roundTrip (buildRequest apiEndpoint token) with
    | error e => rw [getCreditsInfoBody_transport_error lib net apiEndpoint token e h1 h2]
    | ok body =>
      cases h3 : (lib.decode body OpenrouterResponse.zero).2 with
      | some e => rw [getCreditsInfoBody_decode_error lib net apiEndpoint token body e h1 h2 h3]
      | none =>
        by_cases h4 : (lib.decode body OpenrouterResponse.zero).1.Error.Code = 0
        · rw [getCreditsInfoBody_success lib net apiEndpoint token body h1 h2 h3 h4] at h
          exact absurd rfl h
        · rw [getCreditsInfoBody_api_error lib net apiEndpoint token body h1 h2 h3 h4]

/-- The handler of a tick whose fetch fails leaves both gauges at zero, whatever they held
before. -/
theorem pollTick_failed_gauges (lib : Lib) (net : Net) (apiEndpoint token : String)
    (p : Proc) (h : (getCreditsInfo lib net apiEndpoint token p).1.2 ≠ none) :
    (pollTick lib apiEndpoint token p net).metrics.totalCredits = 0
    ∧ (pollTick lib apiEndpoint token p net).metrics.totalUsage = 0 := by
  rw [getCreditsInfo_err] at h
  have hg := pollTick_gauges lib net apiEndpoint token p
  rw [getCreditsInfoBody_failed_credits lib net apiEndpoint token h] at hg
  exact hg

/-- The ticker is built without a panic exactly for intervals of at least two
nanoseconds. -/
theorem startTicker_ok_iff (interval : Int) (p : Proc)
    (hlo : -9223372036854775808 ≤ interval) (hhi : interval ≤ 9223372036854775807) :
    (startTicker interval p).1 = .ok () ↔ 2 ≤ interval := by
  by_cases h1 : interval ≤ 0
  · simp only [startTicker, h1, if_true]
    constructor
    · intro h; cases h
    · intro h; omega
  · have ht : toInt64 (interval - 1) = interval - 1 := by
      unfold toInt64
      omega
    simp only [startTicker, h1, if_false, ht]
    by_cases h2 : interval - 1 ≤ 0
    · simp only [h2, if_true]
      constructor
      · intro h; cases h
      · intro h; omega
    · simp only [h2, if_false, true_iff]
      omega


/-! ## Lemmas on the model of `time.ParseDuration` -/

/-- The rest returned by `leadingInt` is no longer than its input. -/
theorem leadingInt_length : ∀ (s : List Char) (x v : Nat) (r : List Char),
    leadingInt s x = some (v, r) → r.length ≤ s.length := by
  intro s
  induction s with
  | nil =>
    intro x v r h
    simp [leadingInt] at h
    simp [h.2.symm]
  | cons c rest ih =>
    intro x v r h
    unfold leadingInt at h
    split_ifs at h with h1 h2 h3
    · have := ih _ _ _ h
      simp only [List.length_cons]
      omega
    · simp at h
      simp [h.2.symm]

/-- The rest returned by `leadingFraction` is no longer than its input. -/
theorem leadingFraction_length : ∀ (s : List Char) (x scale : Nat) (o : Bool),
    (leadingFraction s x scale o).2.2.length ≤ s.length := by
  intro s
  induction s with
  | nil => intro x scale o; simp [leadingFraction]
  | cons c rest ih =>
    intro x scale o
    unfold leadingFraction
    split_ifs
    · have := ih x scale true
      simp only [List.length_cons]; omega
    · have := ih x scale true
      simp only [List.length_cons]; omega
    · have := ih x scale true
      simp only [List.length_cons]; omega
    · have := ih (x * 10 + (c.toNat - 48)) (scale * 10) false
      simp only [List.length_cons]; omega
    · simp

/-- The rest returned by `fractionPart` is no longer than its input. -/
theorem fractionPart_length (s1 : List Char) :
    (fractionPart s1).2.2.1.length ≤ s1.length := by
  unfold fractionPart
  cases s1 with
  | nil => simp
  | cons c1 s1rest =>
    simp only []
    split_ifs
    · have := leadingFraction_length s1rest 0 1 false
      simp only [List.length_cons]; omega
    · simp

/-- The unit and the rest returned by `splitUnit` make up its input. -/
theorem splitUnit_length : ∀ s : List Char,
    (splitUnit s).1.length + (splitUnit s).2.length = s.length := by
  intro s
  induction s with
  | nil => simp [splitUnit]
  | cons c rest ih =>
    unfold splitUnit
    split_ifs
    · simp
    · simp only [List.length_cons]; omega

/-- A round of the loop consumes at least one character. -/
theorem parseTerm_length (fracNanos : Nat → Nat → Nat → Nat) (orig : String)
    (s : List Char) (t : Nat) (r : List Char)
    (h : parseTerm fracNanos orig s = .ok (t, r)) : r.length < s.length := by
  unfold parseTerm at h
  cases s with
  | nil => simp at h
  | cons c rest =>
    simp only [] at h
    split_ifs at h with h1
    cases hli : leadingInt (c :: rest) 0 with
    | none => simp [hli] at h
    | some vs =>
      obtain ⟨v, s1⟩ := vs
      have hl1 := leadingInt_length _ _ _ _ hli
      simp only [hli] at h
      split_ifs at h with h2 h3
      have hu := splitUnit_length (fractionPart s1).2.2.1
      have hf := fractionPart_length s1
      have h1pos : 0 < (splitUnit (fractionPart s1).2.2.1).1.length :=
        List.length_pos.mpr h3
      split at h
      · simp at h
      · split at h
        · simp at h
        · simp only [Except.ok.injEq, Prod.mk.injEq] at h
          rw [← h.2]
          omega

/-- The loop does not depend on the fuel once the fuel exceeds the length of the string:
the fuel given by `ParseDuration` is never used up. -/
theorem parseDurationLoop_fuel (fracNanos : Nat → Nat → Nat → Nat) (orig : String) :
    ∀ (fuel : Nat) (s : List Char) (d : Nat), s.length < fuel →
      parseDurationLoop fracNanos orig fuel s d
        = parseDurationLoop fracNanos orig (s.length + 1) s d := by
  intro fuel
  induction fuel using Nat.strong_induction_on with
  | _ fuel ih =>
    intro s d hlen
    cases s with
    | nil => cases fuel <;> simp [parseDurationLoop]
    | cons c rest =>
      cases fuel with
      | zero => simp at hlen
      | succ n =>
        simp only [List.length_cons] at hlen ⊢
        unfold parseDurationLoop
        cases hpt : parseTerm fracNanos orig (c :: rest) with
        | error e => rfl
        | ok tr =>
          obtain ⟨t, r⟩ := tr
          have hr := parseTerm_length fracNanos orig (c :: rest) t r hpt
          simp only [List.length_cons] at hr
          simp only []
          split_ifs
          · rfl
          · rw [ih n (Nat.lt_succ_self n) r _ (by omega),
                ih (rest.length + 1) (by omega) r _ (by omega)]

/-! ## The claims -/

/-- C1 (the code departs from the claim): at a failed poll the tick handler does not keep the
gauges.  With the gauges at 100 and 42.5 and an unreachable endpoint, the fetch fails and the
handler leaves both gauges at 0. -/
theorem C1_failed_tick_overwrites_gauges :
    (getCreditsInfo scenarioLib refuse "https://openrouter.ai/api/v1/credits" "sk-1"
        polledProc).1.2 ≠ none
    ∧ polledProc.metrics.totalCredits = 100
    ∧ polledProc.metrics.totalUsage = 85 / 2
    ∧ (pollTick scenarioLib "https://openrouter.ai/api/v1/credits" "sk-1" polledProc
        refuse).metrics.totalCredits = 0
    ∧ (pollTick scenarioLib "https://openrouter.ai/api/v1/credits" "sk-1" polledProc
        refuse).metrics.totalUsage = 0 := by
  refine ⟨?_, rfl, rfl, rfl, rfl⟩
  rw [getCreditsInfo_err]
  decide

/-- C2: after the handler of a tick whose fetch succeeds with `c`, the gauge `total_credits`
equals `c.Total` and the gauge `total_usage` equals `c.Usage`, whatever they held before. -/
theorem C2_successful_tick_sets_gauges (lib : Lib) (net : Net) (apiEndpoint token : String)
    (p : Proc) (c : Credits)
    (h : (getCreditsInfo lib net apiEndpoint token p).1 = (c, none)) :
    (pollTick lib apiEndpoint token p net).metrics.totalCredits = c.Total
    ∧ (pollTick lib apiEndpoint token p net).metrics.totalUsage = c.Usage := by
  have hc : (getCreditsInfoBody lib net apiEndpoint token).credits = c := by
    rw [← getCreditsInfo_credits lib net apiEndpoint token p, h]
  have hg := pollTick_gauges lib net apiEndpoint token p
  rw [hc] at hg
  exact hg

/-- C2 on the scenario body with credits 100.0 and usage 42.5: from any earlier gauge
values (here 0 and 0) the gauges become 100 and 42.5. -/
theorem C2_successful_tick_sets_gauges_witness :
    (getCreditsInfo scenarioLib (serve creditsBody) "https://openrouter.ai/api/v1/credits"
        "sk-1" Proc.init).1 = ({ Total := 100, Usage := 85 / 2 }, none)
    ∧ (pollTick scenarioLib "https://openrouter.ai/api/v1/credits" "sk-1" Proc.init
        (serve creditsBody)).metrics.totalCredits = 100
    ∧ (pollTick scenarioLib "https://openrouter.ai/api/v1/credits" "sk-1" Proc.init
        (serve creditsBody)).metrics.totalUsage = 85 / 2 :=
  ⟨rfl, C2_successful_tick_sets_gauges scenarioLib (serve creditsBody)
    "https://openrouter.ai/api/v1/credits" "sk-1" Proc.init { Total := 100, Usage := 85 / 2 }
    rfl⟩

/-- C3 as stated fails: with a body that holds error code 402 and a string where the number
`total_credits` belongs, the round trip succeeds and decoding fails, yet the failure counter
is not incremented under the label 0. -/
theorem C3_decode_failure_label_counterexample :
    ¬ (∀ (body : Body) (err : GoError),
        scenarioLib.newRequest "https://openrouter.ai/api/v1/credits" = none →
        (serve mistypedBody).roundTrip
            (buildRequest "https://openrouter.ai/api/v1/credits" "sk-1") = .ok body →
        (scenarioLib.decode body OpenrouterResponse.zero).2 = some err →
        (getCreditsInfo scenarioLib (serve mistypedBody)
            "https://openrouter.ai/api/v1/credits" "sk-1"
            Proc.init).2.metrics.apiFailedRequests "0"
          = Proc.init.metrics.apiFailedRequests "0" + 1) := by
  intro h
  have h0 := h (Body.value mistypedBody)
    "json: cannot unmarshal string into Go struct field data.total_credits of type float64"
    rfl rfl (by decide)
  revert h0
  decide

/-- C3 as amended: when `getCreditsInfo` returns an error, the failure counter is
incremented under the decimal string of the error code that `response` holds at the return.
That is the label 0 when the request could not be built or the round trip failed; after a
round trip it is the code the decoder stored, be it an API error or a decode failure, so
the label is 0 for a decode failure that stored no code, as for a body that is not valid
JSON under `goDecode`. -/
theorem C3_failure_label (lib : Lib) (net : Net) (apiEndpoint token : String) (p : Proc)
    (h : (getCreditsInfo lib net apiEndpoint token p).1.2 ≠ none) :
    ((lib.newRequest apiEndpoint ≠ none
        ∨ ∃ err, net.roundTrip (buildRequest apiEndpoint token) = .error err) →
      (getCreditsInfo lib net apiEndpoint token p).2.metrics.apiFailedRequests "0"
        = p.metrics.apiFailedRequests "0" + 1)
    ∧ (∀ body : Body, lib.newRequest apiEndpoint = none →
        net.roundTrip (buildRequest apiEndpoint token) = .ok body →
        (getCreditsInfo lib net apiEndpoint token p).2.metrics.apiFailedRequests
            (Itoa (lib.decode body OpenrouterResponse.zero).1.Error.Code)
          = p.metrics.apiFailedRequests
              (Itoa (lib.decode body OpenrouterResponse.zero).1.Error.Code) + 1)
    ∧ (∀ (parseFloat : String → Option Float64) (err : GoError),
        lib.decode = goDecode parseFloat → lib.newRequest apiEndpoint = none →
        net.roundTrip (buildRequest apiEndpoint token) = .ok (Body.invalid err) →
        (getCreditsInfo lib net apiEndpoint token p).2.metrics.apiFailedRequests "0"
          = p.metrics.apiFailedRequests "0" + 1) := by
  rw [getCreditsInfo_err] at h
  rw [getCreditsInfo_metrics, getCreditsInfoDeferred_failed net _ _ h]
  have hbody : ∀ body : Body, lib.newRequest apiEndpoint = none →
      net.roundTrip (buildRequest apiEndpoint token) = .ok body →
      (getCreditsInfoBody lib net apiEndpoint token).response
        = (lib.decode body OpenrouterResponse.zero).1 := by
    intro body h1 h2
    cases h3 : (lib.decode body OpenrouterResponse.zero).2 with
    | some e => rw [getCreditsInfoBody_decode_error lib net apiEndpoint token body e h1 h2 h3]
    | none =>
      by_cases h4 : (lib.decode body OpenrouterResponse.zero).1.Error.Code = 0
      · rw [getCreditsInfoBody_success lib net apiEndpoint token body h1 h2 h3 h4]
      · rw [getCreditsInfoBody_api_error lib net apiEndpoint token body h1 h2 h3 h4]
  refine ⟨?_, ?_, ?_⟩
  · intro hcase
    have hz : (getCreditsInfoBody lib net apiEndpoint token).response
        = OpenrouterResponse.zero := by
      cases h1 : lib.newRequest apiEndpoint with
      | some e => rw [getCreditsInfoBody_request_error lib net apiEndpoint token e h1]
      | none =>
        rcases hcase with hne | ⟨e, h2⟩
        · exact absurd h1 hne
        · rw [getCreditsInfoBody_transport_error lib net apiEndpoint token e h1 h2]
    rw [hz]
    simp [Metrics.incFailed, Metrics.observe, OpenrouterResponse.zero, ErrorInfo.zero,
      Itoa_zero]
  · intro body h1 h2
    rw [hbody body h1 h2]
    simp [Metrics.incFailed, Metrics.observe]
  · intro parseFloat err hdec h1 h2
    rw [hbody (Body.invalid err) h1 h2, hdec]
    simp [Metrics.incFailed, Metrics.observe, goDecode, OpenrouterResponse.zero,
      ErrorInfo.zero, Itoa_zero]

/-- C3 as amended, on three failed calls: the mistyped body with error code 402 counts
under the label 402, an unreachable endpoint counts under the label 0, and a body that is
not JSON counts under the label 0. -/
theorem C3_failure_label_witness :
    (getCreditsInfo scenarioLib (serve mistypedBody) "https://openrouter.ai/api/v1/credits"
        "sk-1" Proc.init).1.2 ≠ none
    ∧ (getCreditsInfo scenarioLib (serve mistypedBody) "https://openrouter.ai/api/v1/credits"
        "sk-1" Proc.init).2.metrics.apiFailedRequests "402" = 0 + 1
    ∧ (getCreditsInfo scenarioLib refuse "https://openrouter.ai/api/v1/credits"
        "sk-1" Proc.init).2.metrics.apiFailedRequests "0" = 0 + 1
    ∧ (getCreditsInfo scenarioLib
        { roundTrip := fun _ => .ok (Body.invalid "invalid character"), elapsed := 5 }
        "https://openrouter.ai/api/v1/credits"
        "sk-1" Proc.init).2.metrics.apiFailedRequests "0" = 0 + 1 :=
  ⟨by decide,
   (C3_failure_label scenarioLib (serve mistypedBody) "https://openrouter.ai/api/v1/credits"
      "sk-1" Proc.init (by decide)).2.1 (Body.value mistypedBody) rfl rfl,
   (C3_failure_label scenarioLib refuse "https://openrouter.ai/api/v1/credits"
      "sk-1" Proc.init (by decide)).1 (Or.inr ⟨_, rfl⟩),
   (C3_failure_label scenarioLib
      { roundTrip := fun _ => .ok (Body.invalid "invalid character"), elapsed := 5 }
      "https://openrouter.ai/api/v1/credits" "sk-1" Proc.init (by decide)).2.2
      scenarioParseFloat "invalid character" rfl rfl rfl⟩

/-- C4: a call of `getCreditsInfo` that returns an error adds one to the failure counter
under exactly one label, the decimal string of the error code held by `response`, leaves
every other label of the failure counter unchanged and leaves the success counter
unchanged. -/
theorem C4_failed_call_counts_once (lib : Lib) (net : Net) (apiEndpoint token : String)
    (p : Proc) (h : (getCreditsInfo lib net apiEndpoint token p).1.2 ≠ none) :
    (∀ l : String,
      (getCreditsInfo lib net apiEndpoint token p).2.metrics.apiFailedRequests l
        = if l = Itoa (getCreditsInfoBody lib net apiEndpoint token).response.Error.Code
          then p.metrics.apiFailedRequests l + 1 else p.metrics.apiFailedRequests l)
    ∧ (getCreditsInfo lib net apiEndpoint token p).2.metrics.apiSuccessfulRequests
        = p.metrics.apiSuccessfulRequests := by
  rw [getCreditsInfo_err] at h
  rw [getCreditsInfo_metrics, getCreditsInfoDeferred_failed net _ _ h]
  exact ⟨fun _ => rfl, rfl⟩

/-- C4 on the scenario body with error code 402: the call fails, the failure counter under
the label 402 goes from 0 to 1, the label 0 and the success counter stay at 0. -/
theorem C4_failed_call_counts_once_witness :
    (getCreditsInfo scenarioLib (serve insufficientBody)
        "https://openrouter.ai/api/v1/credits" "sk-1" Proc.init).1.2
      = some "API error (code 402): insufficient credit"
    ∧ (getCreditsInfo scenarioLib (serve insufficientBody)
        "https://openrouter.ai/api/v1/credits" "sk-1"
        Proc.init).2.metrics.apiFailedRequests "402" = 1
    ∧ (getCreditsInfo scenarioLib (serve insufficientBody)
        "https://openrouter.ai/api/v1/credits" "sk-1"
        Proc.init).2.metrics.apiFailedRequests "0" = 0
    ∧ (getCreditsInfo scenarioLib (serve insufficientBody)
        "https://openrouter.ai/api/v1/credits" "sk-1"
        Proc.init).2.metrics.apiSuccessfulRequests = 0 := by
  have h := C4_failed_call_counts_once scenarioLib (serve insufficientBody)
    "https://openrouter.ai/api/v1/credits" "sk-1" Proc.init (by decide)
  refine ⟨by decide, ?_, ?_, h.2⟩
  · rw [h.1 "402"]; decide
  · rw [h.1 "0"]; decide

/-- C5: a call of `getCreditsInfo` that returns a nil error adds exactly one to the success
counter and leaves the failure counter unchanged under every label. -/
theorem C5_successful_call_counts_once (lib : Lib) (net : Net) (apiEndpoint token : String)
    (p : Proc) (h : (getCreditsInfo lib net apiEndpoint token p).1.2 = none) :
    (getCreditsInfo lib net apiEndpoint token p).2.metrics.apiSuccessfulRequests
        = p.metrics.apiSuccessfulRequests + 1
    ∧ ∀ l : String,
        (getCreditsInfo lib net apiEndpoint token p).2.metrics.apiFailedRequests l
          = p.metrics.apiFailedRequests l := by
  rw [getCreditsInfo_err] at h
  rw [getCreditsInfo_metrics, getCreditsInfoDeferred_ok net _ _ h]
  exact ⟨rfl, fun _ => rfl⟩

/-- C5 on the scenario body with error code 0: the call succeeds, the success counter goes
from 0 to 1 and the failure counter stays at 0 under the labels 0 and 402. -/
theorem C5_successful_call_counts_once_witness :
    (getCreditsInfo scenarioLib (serve creditsBody) "https://openrouter.ai/api/v1/credits"
        "sk-1" Proc.init).1.2 = none
    ∧ (getCreditsInfo scenarioLib (serve creditsBody) "https://openrouter.ai/api/v1/credits"
        "sk-1" Proc.init).2.metrics.apiSuccessfulRequests = 0 + 1
    ∧ (getCreditsInfo scenarioLib (serve creditsBody) "https://openrouter.ai/api/v1/credits"
        "sk-1" Proc.init).2.metrics.apiFailedRequests "0" = 0
    ∧ (getCreditsInfo scenarioLib (serve creditsBody) "https://openrouter.ai/api/v1/credits"
        "sk-1" Proc.init).2.metrics.apiFailedRequests "402" = 0 :=
  ⟨rfl,
   (C5_successful_call_counts_once scenarioLib (serve creditsBody)
      "https://openrouter.ai/api/v1/credits" "sk-1" Proc.init rfl).1,
   (C5_successful_call_counts_once scenarioLib (serve creditsBody)
      "https://openrouter.ai/api/v1/credits" "sk-1" Proc.init rfl).2 "0",
   (C5_successful_call_counts_once scenarioLib (serve creditsBody)
      "https://openrouter.ai/api/v1/credits" "sk-1" Proc.init rfl).2 "402"⟩

/-- C6: every call of `getCreditsInfo`, whatever the library and the network answer (request
construction failure, transport failure, decode failure, API error or success), adds
exactly one observation to the request-duration histogram. -/
theorem C6_every_call_observes_once (lib : Lib) (net : Net) (apiEndpoint token : String)
    (p : Proc) :
    (getCreditsInfo lib net apiEndpoint token p).2.metrics.observations
      = p.metrics.observations + 1 := by
  rw [getCreditsInfo_metrics]
  unfold getCreditsInfoDeferred
  cases (getCreditsInfoBody lib net apiEndpoint token).err <;>
    simp [Metrics.observations, Metrics.observe, Metrics.incFailed, Metrics.incSuccessful]

/-- C7: `getCreditsInfo` returns a nil error exactly when the request is built, the round
trip succeeds, the body decodes without error and the decoded error code is zero; the
returned `Credits` is then the decoded field `Data`.  When the round trip and the decoding
succeed and the code is not zero, the error text carries the code and the message, and the
returned `Credits` is the zero value. -/
theorem C7_nil_error_iff (lib : Lib) (net : Net) (apiEndpoint token : String) (p : Proc) :
    ((getCreditsInfo lib net apiEndpoint token p).1.2 = none ↔
        lib.newRequest apiEndpoint = none
        ∧ ∃ body, net.roundTrip (buildRequest apiEndpoint token) = .ok body
            ∧ (lib.decode body OpenrouterResponse.zero).2 = none
            ∧ (lib.decode body OpenrouterResponse.zero).1.Error.Code = 0)
    ∧ (∀ body : Body, lib.newRequest apiEndpoint = none →
        net.roundTrip (buildRequest apiEndpoint token) = .ok body →
        (lib.decode body OpenrouterResponse.zero).2 = none →
          ((lib.decode body OpenrouterResponse.zero).1.Error.Code = 0 →
            (getCreditsInfo lib net apiEndpoint token p).1
              = ((lib.decode body OpenrouterResponse.zero).1.Data, none))
          ∧ ((lib.decode body OpenrouterResponse.zero).1.Error.Code ≠ 0 →
            (getCreditsInfo lib net apiEndpoint token p).1
              = (Credits.zero,
                 some ("API error (code "
                   ++ toString (lib.decode body OpenrouterResponse.zero).1.Error.Code
                   ++ "): " ++ (lib.decode body OpenrouterResponse.zero).1.Error.Message)))) := by
  constructor
  · rw [getCreditsInfo_err]
    constructor
    · intro h
      cases h1 : lib.newRequest apiEndpoint with
      | some e =>
        rw [getCreditsInfoBody_request_error lib net apiEndpoint token e h1] at h
        simp at h
      | none =>
        refine ⟨rfl, ?_⟩
        cases h2 : net.roundTrip (buildRequest apiEndpoint token) with
        | error e =>
          rw [getCreditsInfoBody_transport_error lib net apiEndpoint token e h1 h2] at h
          simp at h
        | ok body =>
          refine ⟨body, rfl, ?_⟩
          cases h3 : (lib.decode body OpenrouterResponse.zero).2 with
          | some e =>
            rw [getCreditsInfoBody_decode_error lib net apiEndpoint token body e h1 h2 h3] at h
            simp at h
          | none =>
            refine ⟨rfl, ?_⟩
            by_contra h4
            rw [getCreditsInfoBody_api_error lib net apiEndpoint token body h1 h2 h3 h4] at h
            simp at h
    · rintro ⟨h1, body, h2, h3, h4⟩
      rw [getCreditsInfoBody_success lib net apiEndpoint token body h1 h2 h3 h4]
  · intro body h1 h2 h3
    constructor
    · intro h4
      show ((getCreditsInfoBody lib net apiEndpoint token).credits,
        (getCreditsInfoBody lib net apiEndpoint token).err) = _
      rw [getCreditsInfoBody_success lib net apiEndpoint token body h1 h2 h3 h4]
    · intro h4
      show ((getCreditsInfoBody lib net apiEndpoint token).credits,
        (getCreditsInfoBody lib net apiEndpoint token).err) = _
      rw [getCreditsInfoBody_api_error lib net apiEndpoint token body h1 h2 h3 h4]

/-- C7 on the two scenario bodies: error code 0 gives a nil error and the decoded credits,
error code 402 gives the zero credits and the text of the API error. -/
theorem C7_nil_error_iff_witness :
    (getCreditsInfo scenarioLib (serve creditsBody) "https://openrouter.ai/api/v1/credits"
        "sk-1" Proc.init).1 = ({ Total := 100, Usage := 85 / 2 }, none)
    ∧ (getCreditsInfo scenarioLib (serve insufficientBody)
        "https://openrouter.ai/api/v1/credits" "sk-1" Proc.init).1
        = (Credits.zero, some "API error (code 402): insufficient credit") :=
  ⟨((C7_nil_error_iff scenarioLib (serve creditsBody) "https://openrouter.ai/api/v1/credits"
      "sk-1" Proc.init).2 (Body.value creditsBody) rfl rfl rfl).1 rfl,
   ((C7_nil_error_iff scenarioLib (serve insufficientBody)
      "https://openrouter.ai/api/v1/credits" "sk-1" Proc.init).2
      (Body.value insufficientBody) rfl rfl rfl).2 (by decide)⟩

/-- C8: `getInterval` returns 15 seconds when `WATCH_INTERVAL` is unset and the parsed
duration when the value parses; when the value does not parse, `getInterval` ends the
process with exit status 1, so `main` exits with status 1 without building the ticker,
sending a request or touching a collector. -/
theorem C8_getInterval (lib : Lib) (env : Env) (p : Proc) :
    (env "WATCH_INTERVAL" = none →
      getInterval lib env p = (.ok (15 * Second), p) ∧ 15 * Second = 15000000000)
    ∧ (∀ (s : String) (d : Duration), env "WATCH_INTERVAL" = some s →
        lib.parseDuration s = .ok d → getInterval lib env p = (.ok d, p))
    ∧ (∀ (s : String) (err : GoError), env "WATCH_INTERVAL" = some s →
        lib.parseDuration s = .error err →
        (getInterval lib env p).1 = .error (Exit.osExit 1)
        ∧ (Exit.osExit 1).status ≠ 0
        ∧ ∀ ticks : List Net,
            (main lib env ticks).1 = Exit.osExit 1
            ∧ tickerCreated (main lib env ticks).2.trace = false
            ∧ requestsOf (main lib env ticks).2.trace = []
            ∧ (main lib env ticks).2.metrics = Proc.init.metrics
            ∧ (Getenv env "OPENROUTER_API_TOKEN" ≠ "" →
                (main lib env ticks).2.trace = [Event.logBadInterval err])) := by
  refine ⟨?_, ?_, ?_⟩
  · intro h
    unfold getInterval
    simp [h, Second]
  · intro s d hs hp
    unfold getInterval
    simp [hs, hp]
  · intro s err hs hp
    refine ⟨?_, by decide, ?_⟩
    · unfold getInterval
      simp [hs, hp]
    · intro ticks
      by_cases ht : Getenv env "OPENROUTER_API_TOKEN" = ""
      · rw [main_token_missing lib env ticks ht]
        exact ⟨rfl, rfl, rfl, rfl, fun hne => absurd ht hne⟩
      · rw [main_bad_interval lib env ticks s err ht hs hp]
        exact ⟨rfl, rfl, rfl, rfl, fun _ => rfl⟩

/-- C8 on three environments: unset gives 15 s, the value 1m30s gives 90 s, and the value
abc ends the process with status 1 before the ticker, whatever ticks would follow. -/
theorem C8_getInterval_witness :
    getInterval scenarioLib (envWith (some "sk-1") none) Proc.init
        = (.ok (15 * Second), Proc.init)
    ∧ getInterval scenarioLib (envWith (some "sk-1") (some "1m30s")) Proc.init
        = (.ok 90000000000, Proc.init)
    ∧ (main scenarioLib (envWith (some "sk-1") (some "abc")) [serve creditsBody]).1
        = Exit.osExit 1
    ∧ tickerCreated
        (main scenarioLib (envWith (some "sk-1") (some "abc")) [serve creditsBody]).2.trace
        = false :=
  ⟨((C8_getInterval scenarioLib (envWith (some "sk-1") none) Proc.init).1 rfl).1,
   (C8_getInterval scenarioLib (envWith (some "sk-1") (some "1m30s")) Proc.init).2.1
      "1m30s" 90000000000 rfl rfl,
   (((C8_getInterval scenarioLib (envWith (some "sk-1") (some "abc")) Proc.init).2.2
      "abc" "time: invalid duration \"abc\"" rfl rfl).2.2 [serve creditsBody]).1,
   (((C8_getInterval scenarioLib (envWith (some "sk-1") (some "abc")) Proc.init).2.2
      "abc" "time: invalid duration \"abc\"" rfl rfl).2.2 [serve creditsBody]).2.1⟩

/-- C9: `getAPIToken` ends the process with exit status 1 exactly when
`OPENROUTER_API_TOKEN` is unset or empty; `main` then exits with status 1 having sent no
request and run no fetch.  Otherwise `getAPIToken` returns the value of the variable
unchanged, and every request `main` sends carries the header `Authorization` equal to
`Bearer ` followed by that value. -/
theorem C9_getAPIToken (lib : Lib) (env : Env) (ticks : List Net) (p : Proc) :
    ((getAPIToken env p).1 = .error (Exit.osExit 1) ↔
        (env "OPENROUTER_API_TOKEN" = none ∨ env "OPENROUTER_API_TOKEN" = some ""))
    ∧ (Exit.osExit 1).status ≠ 0
    ∧ ((env "OPENROUTER_API_TOKEN" = none ∨ env "OPENROUTER_API_TOKEN" = some "") →
        (main lib env ticks).1 = Exit.osExit 1
        ∧ requestsOf (main lib env ticks).2.trace = []
        ∧ (main lib env ticks).2.metrics = Proc.init.metrics)
    ∧ (∀ v : String, env "OPENROUTER_API_TOKEN" = some v → v ≠ "" →
        getAPIToken env p = (.ok v, p)
        ∧ ∀ req ∈ requestsOf (main lib env ticks).2.trace,
            req.authorization = "Bearer " ++ v) := by
  have hget : (env "OPENROUTER_API_TOKEN" = none ∨ env "OPENROUTER_API_TOKEN" = some "") →
      Getenv env "OPENROUTER_API_TOKEN" = "" := by
    intro h
    unfold Getenv
    rcases h with h | h <;> simp [h]
  refine ⟨?_, by decide, ?_, ?_⟩
  · unfold getAPIToken Getenv
    cases h : env "OPENROUTER_API_TOKEN" with
    | none => simp
    | some v =>
      by_cases hv : v = ""
      · simp [hv]
      · simp [hv]
  · intro h
    rw [main_token_missing lib env ticks (hget h)]
    exact ⟨rfl, rfl, rfl⟩
  · intro v hv hne
    have hg : Getenv env "OPENROUTER_API_TOKEN" = v := by
      unfold Getenv
      simp [hv]
    constructor
    · unfold getAPIToken
      simp [hg, hne]
    · have hm := main_requests lib env ticks
      rw [hg] at hm
      exact hm

/-- C9 on two environments: without the token `main` exits with status 1 and sends
nothing; with the token sk-1 `getAPIToken` returns sk-1, and the one request sent for one
tick is a GET of the default endpoint with the header `Bearer sk-1`. -/
theorem C9_getAPIToken_witness :
    (main scenarioLib (envWith none none) [serve creditsBody]).1 = Exit.osExit 1
    ∧ requestsOf (main scenarioLib (envWith none none) [serve creditsBody]).2.trace = []
    ∧ getAPIToken (envWith (some "sk-1") none) Proc.init = (.ok "sk-1", Proc.init)
    ∧ requestsOf (main scenarioLib (envWith (some "sk-1") none) [serve creditsBody]).2.trace
        = [{ method := "GET", url := "https://openrouter.ai/api/v1/credits",
             authorization := "Bearer sk-1" }] :=
  ⟨((C9_getAPIToken scenarioLib (envWith none none) [serve creditsBody] Proc.init).2.2.1
      (Or.inl rfl)).1,
   ((C9_getAPIToken scenarioLib (envWith none none) [serve creditsBody] Proc.init).2.2.1
      (Or.inl rfl)).2.1,
   ((C9_getAPIToken scenarioLib (envWith (some "sk-1") none) [serve creditsBody]
      Proc.init).2.2.2 "sk-1" rfl (by decide)).1,
   rfl⟩

/-- C10 (the code departs from the claim): `getInterval` returns parsed values that are not
positive, or whose predecessor is not, and `main` then panics while building the ticker:
the values 0s and -5s panic in `time.NewTicker`, the value 1ns in `Ticker.Reset`. -/
theorem C10_small_interval_panics :
    (getInterval scenarioLib (envWith (some "sk-1") (some "0s")) Proc.init).1 = .ok 0
    ∧ (main scenarioLib (envWith (some "sk-1") (some "0s")) [serve creditsBody]).1
        = Exit.panicked "non-positive interval for NewTicker"
    ∧ (getInterval scenarioLib (envWith (some "sk-1") (some "1ns")) Proc.init).1 = .ok 1
    ∧ (main scenarioLib (envWith (some "sk-1") (some "1ns")) [serve creditsBody]).1
        = Exit.panicked "non-positive interval for Ticker.Reset"
    ∧ (getInterval scenarioLib (envWith (some "sk-1") (some "-5s")) Proc.init).1
        = .ok (-5000000000)
    ∧ (main scenarioLib (envWith (some "sk-1") (some "-5s")) [serve creditsBody]).1
        = Exit.panicked "non-positive interval for NewTicker" :=
  ⟨rfl, rfl, rfl, rfl, rfl, rfl⟩

end OpenrouterWatcher
